import Mathlib

/-!
Verification development for the zellij-pane-tracker plugin
(`src/lib.rs`, `src/main.rs`).

The plugin's core is embedded shallowly:

* `PaneInfo` / `PaneManifest` mirror the host manifest shape
  (`HashMap<usize, Vec<PaneInfo>>` is modelled as a list of
  (tab-index, panes) entries; only iteration matters to the code).
* `BTreeMap<String, String>` is modelled as an association list with
  replace-on-insert semantics (`mapInsert` / `mapGet`).
* Side effects (`run_command` invocations) are reified as a `Request`
  emitted into a list, in the order the code issues them:
  `Request.dump n` is the shell command
  `zellij action dump-pane n > /tmp/zj-pane-n.txt 2>/dev/null || true`,
  `Request.symlink n safe` is
  `ln -sf /tmp/zj-pane-n.txt /tmp/zj-safe.txt 2>/dev/null || true`,
  `Request.writeMeta es` is the write of the serialized entries to
  `/tmp/zj-panes-info.json`, and `Request.writeNames doc` the write of
  the serialized snapshot document to `/tmp/zj-pane-names.json`
  (JSON encoding is treated as a correct external primitive).
* The clock read (`SystemTime::now().duration_since(UNIX_EPOCH)`) is a
  parameter `clock : Option Nat`; `none` models `Err`, and
  `unwrap_or_default().as_secs()` becomes `clock.getD 0`.
* Rust's `str::starts_with` is `strStartsWith` (character-prefix test)
  and `char::is_alphanumeric` is Lean's `Char.isAlphanum`.
-/

/-- One pane descriptor, verbatim from the host manifest
(fields of `PaneInfo` used by `src/lib.rs`). -/
structure PaneInfo where
  id : Nat
  is_plugin : Bool
  title : String
  terminal_command : Option String
  is_focused : Bool
  is_floating : Bool
  pane_columns : Nat
  pane_rows : Nat
  pane_x : Nat
  pane_y : Nat
deriving Repr, DecidableEq

/-- The host manifest: `panes : HashMap<usize, Vec<PaneInfo>>`, keyed by tab
index, modelled as the list of its entries. -/
structure PaneManifest where
  panes : List (Nat × List PaneInfo)
deriving Repr, DecidableEq

/-- `BTreeMap<String, String>.insert`: replace the value of an existing key,
otherwise add the binding. -/
def mapInsert : List (String × String) → String → String → List (String × String)
  | [], k, v => [(k, v)]
  | (k0, v0) :: rest, k, v =>
    if k0 = k then (k, v) :: rest else (k0, v0) :: mapInsert rest k v

/-- `BTreeMap<String, String>.get`: the value bound to the first (only)
occurrence of the key. -/
def mapGet : List (String × String) → String → Option String
  | [], _ => none
  | (k0, v0) :: rest, k => if k0 = k then some v0 else mapGet rest k

/-- The key set of an association-list map. -/
def mapKeys (m : List (String × String)) : List String := m.map Prod.fst

/-- Plugin state (`struct State` in `src/lib.rs`). -/
structure State where
  pane_names : List (String × String)
  pane_commands : List (String × String)
  last_manifest : Option PaneManifest
deriving Repr, DecidableEq

/-- `State::default()`: both maps empty, no manifest seen. -/
def initState : State :=
  { pane_names := [], pane_commands := [], last_manifest := none }

/-- The synthesized pane identifier: `format!("plugin_{}", id)` for plugin
panes, `format!("terminal_{}", id)` otherwise. -/
def paneId (p : PaneInfo) : String :=
  if p.is_plugin then "plugin_" ++ toString p.id else "terminal_" ++ toString p.id

/-- One iteration of the `update_pane_info` loop body on the pair
(names, commands): record the title under the pane id, and the running
command only when present. -/
def recordPane (acc : List (String × String) × List (String × String))
    (p : PaneInfo) : List (String × String) × List (String × String) :=
  let pane_id := paneId p
  let names := mapInsert acc.1 pane_id p.title
  match p.terminal_command with
  | some cmd => (names, mapInsert acc.2 pane_id cmd)
  | none => (names, acc.2)

/-- `State::update_pane_info`: clear both maps, then iterate all tabs and all
panes within each tab, recording name and (when present) command. -/
def update_pane_info (s : State) (m : PaneManifest) : State :=
  let cleared : List (String × String) × List (String × String) := ([], [])
  let result := m.panes.foldl (fun acc tab => tab.2.foldl recordPane acc) cleared
  { s with pane_names := result.1, pane_commands := result.2 }

/-- All pane descriptors of a manifest, in iteration order. -/
def allPanes (m : PaneManifest) : List PaneInfo :=
  (m.panes.map Prod.snd).flatten

/-- The synthesized identifiers derivable from a manifest's descriptors. -/
def manifestIds (m : PaneManifest) : List String :=
  (m.panes.map (fun tab => tab.2.map paneId)).flatten

/-- The per-character sanitizer from `auto_capture_panes`:
`' ' | '/' => '-'`, then `c if c.is_alphanumeric() || c == '-' || c == '_' => c`,
then `_ => '_'` (match arms in source order). -/
def sanitizeChar (c : Char) : Char :=
  if c = ' ' ∨ c = '/' then '-'
  else if c.isAlphanum ∨ c = '-' ∨ c = '_' then c
  else '_'

/-- `name.chars().map(sanitizeChar).collect::<String>()`. -/
def sanitizeName (name : String) : String :=
  ⟨name.data.map sanitizeChar⟩

/-- Rust `str::starts_with`: the second string is a character prefix of the
first. -/
def strStartsWith (s pre : String) : Bool :=
  List.isPrefixOf pre.data s.data

/-- The snapshot document `PaneNamesExport`. -/
structure PaneNamesExport where
  panes : List (String × String)
  timestamp : Nat
deriving Repr, DecidableEq

/-- One capture metadata entry (`PaneInfoExport`). -/
structure PaneInfoExport where
  pane_id : String
  name : String
  command : Option String
  is_focused : Bool
  is_floating : Bool
  coordinates : String
deriving Repr, DecidableEq

/-- An externalized side effect: one `run_command` invocation. -/
inductive Request where
  | dump (paneNum : Nat)
  | symlink (paneNum : Nat) (safeName : String)
  | writeMeta (entries : List PaneInfoExport)
  | writeNames (doc : PaneNamesExport)
deriving Repr, DecidableEq

/-- The requests `auto_capture_panes` issues for one pane descriptor: nothing
for plugin panes; otherwise a dump, then — when the state store has a name for
the pane whose sanitization does not start with `"Pane-"` — a symlink. -/
def autoCaptureOne (s : State) (p : PaneInfo) : List Request :=
  if p.is_plugin then []
  else
    let pane_id := "terminal_" ++ toString p.id
    let pane_num := p.id
    let base := [Request.dump pane_num]
    match mapGet s.pane_names pane_id with
    | some name =>
        let safe_name := sanitizeName name
        if strStartsWith safe_name "Pane-" then base
        else base ++ [Request.symlink pane_num safe_name]
    | none => base

/-- `State::auto_capture_panes`: iterate all tabs, then all panes within each
tab, issuing the per-pane requests in order. -/
def auto_capture_panes (s : State) (m : PaneManifest) : List Request :=
  (m.panes.map (fun tab => (tab.2.map (autoCaptureOne s)).flatten)).flatten

/-- The metadata entry `capture_all_panes` builds for one descriptor. -/
def exportEntry (s : State) (p : PaneInfo) : PaneInfoExport :=
  let pane_id := paneId p
  { pane_id := pane_id
    name := (mapGet s.pane_names pane_id).getD ""
    command := mapGet s.pane_commands pane_id
    is_focused := p.is_focused
    is_floating := p.is_floating
    coordinates := toString p.pane_columns ++ "x" ++ toString p.pane_rows
      ++ " at (" ++ toString p.pane_x ++ "," ++ toString p.pane_y ++ ")" }

/-- `State::capture_all_panes`: build one metadata entry per descriptor
(plugin panes included, in iteration order), issue a single write of the
serialized sequence, then run `auto_capture_panes`. -/
def capture_all_panes (s : State) (m : PaneManifest) : List Request :=
  let all_panes_info := (m.panes.map (fun tab => tab.2.map (exportEntry s))).flatten
  Request.writeMeta all_panes_info :: auto_capture_panes s m

/-- `State::export_to_file`: snapshot the names map with a timestamp
(`clock.getD 0` models `duration_since(UNIX_EPOCH).unwrap_or_default().as_secs()`)
and issue one overwrite write of the serialized document. -/
def export_to_file (s : State) (clock : Option Nat) : List Request :=
  let pexport : PaneNamesExport :=
    { panes := s.pane_names, timestamp := clock.getD 0 }
  [Request.writeNames pexport]

/-- The predicate picking out metadata-document writes among requests. -/
def isMetaWrite : Request → Bool
  | Request.writeMeta _ => true
  | _ => false

/-- The sanitizer described by the specification's rule, identity case first:
a character maps to itself if alphanumeric, `-` or `_`; space and `/` map to
`-`; every other character maps to `_`. -/
def sanitizeCharSpec (c : Char) : Char :=
  if c.isAlphanum ∨ c = '-' ∨ c = '_' then c
  else if c = ' ' ∨ c = '/' then '-'
  else '_'

/-- A manifest with a single non-plugin pane at index 7 titled "build". -/
def paneBuild : PaneInfo :=
  { id := 7
    is_plugin := false
    title := "build"
    terminal_command := some "cargo build"
    is_focused := true
    is_floating := false
    pane_columns := 80
    pane_rows := 24
    pane_x := 0
    pane_y := 0 }

def mBuild : PaneManifest := { panes := [(0, [paneBuild])] }

/-- A manifest with a single non-plugin pane at index 0 whose title is the
empty string (so its sanitized name is the empty token). -/
def paneEmptyTitle : PaneInfo :=
  { id := 0
    is_plugin := false
    title := ""
    terminal_command := none
    is_focused := false
    is_floating := false
    pane_columns := 80
    pane_rows := 24
    pane_x := 0
    pane_y := 0 }

def mEmptyTitle : PaneManifest := { panes := [(0, [paneEmptyTitle])] }

/-- A manifest with a single non-plugin pane at index 3 whose title
sanitizes to "Pane-3". -/
def panePane3 : PaneInfo :=
  { id := 3
    is_plugin := false
    title := "Pane/3"
    terminal_command := none
    is_focused := false
    is_floating := false
    pane_columns := 80
    pane_rows := 24
    pane_x := 0
    pane_y := 0 }

def mPane3 : PaneManifest := { panes := [(0, [panePane3])] }

/-- A manifest containing only plugin panes. -/
def panePlugin : PaneInfo :=
  { id := 1
    is_plugin := true
    title := "status-bar"
    terminal_command := none
    is_focused := false
    is_floating := false
    pane_columns := 80
    pane_rows := 1
    pane_x := 0
    pane_y := 0 }

def mPluginOnly : PaneManifest := { panes := [(0, [panePlugin])] }

/-- A manifest with one non-plugin pane at index 5 titled "x". -/
def paneX : PaneInfo :=
  { id := 5
    is_plugin := false
    title := "x"
    terminal_command := none
    is_focused := false
    is_floating := false
    pane_columns := 10
    pane_rows := 10
    pane_x := 0
    pane_y := 0 }

def mX : PaneManifest := { panes := [(0, [paneX])] }

/-- A manifest with one non-plugin pane at index 2 running a command. -/
def paneVim : PaneInfo :=
  { id := 2
    is_plugin := false
    title := "editor"
    terminal_command := some "vim"
    is_focused := true
    is_floating := false
    pane_columns := 100
    pane_rows := 40
    pane_x := 0
    pane_y := 0 }

def mVim : PaneManifest := { panes := [(0, [paneVim])] }

theorem mapKeys_nil : mapKeys [] = [] := rfl

theorem mapKeys_cons (k v : String) (l : List (String × String)) :
    mapKeys ((k, v) :: l) = k :: mapKeys l := rfl

theorem mem_mapKeys_mapInsert (l : List (String × String)) (k v a : String) :
    a ∈ mapKeys (mapInsert l k v) ↔ a = k ∨ a ∈ mapKeys l := by
  induction l with
  | nil => simp [mapInsert, mapKeys_cons, mapKeys_nil]
  | cons kv rest ih =>
    obtain ⟨k0, v0⟩ := kv
    by_cases h : k0 = k
    · subst h
      simp [mapInsert, mapKeys_cons]
    · simp only [mapInsert, if_neg h, mapKeys_cons, List.mem_cons, ih]
      tauto

theorem recordPane_fst (acc : List (String × String) × List (String × String))
    (p : PaneInfo) : (recordPane acc p).1 = mapInsert acc.1 (paneId p) p.title := by
  cases h : p.terminal_command <;> simp [recordPane, h]

theorem recordPane_snd_none (acc : List (String × String) × List (String × String))
    (p : PaneInfo) (h : p.terminal_command = none) : (recordPane acc p).2 = acc.2 := by
  simp [recordPane, h]

theorem recordPane_snd_some (acc : List (String × String) × List (String × String))
    (p : PaneInfo) (c : String) (h : p.terminal_command = some c) :
    (recordPane acc p).2 = mapInsert acc.2 (paneId p) c := by
  simp [recordPane, h]

theorem mem_keys_foldPanes_names (ps : List PaneInfo) :
    ∀ (acc : List (String × String) × List (String × String)) (a : String),
      a ∈ mapKeys (ps.foldl recordPane acc).1 ↔
        (∃ p ∈ ps, a = paneId p) ∨ a ∈ mapKeys acc.1 := by
  induction ps with
  | nil => intro acc a; simp
  | cons p ps ih =>
    intro acc a
    rw [List.foldl_cons, ih, recordPane_fst, mem_mapKeys_mapInsert]
    simp only [List.mem_cons]
    constructor
    · rintro (⟨q, hq, rfl⟩ | hk | hacc)
      · exact Or.inl ⟨q, Or.inr hq, rfl⟩
      · exact Or.inl ⟨p, Or.inl rfl, hk⟩
      · exact Or.inr hacc
    · rintro (⟨q, (rfl | hq), rfl⟩ | hacc)
      · exact Or.inr (Or.inl rfl)
      · exact Or.inl ⟨q, hq, rfl⟩
      · exact Or.inr (Or.inr hacc)

theorem mem_keys_foldPanes_cmds (ps : List PaneInfo) :
    ∀ (acc : List (String × String) × List (String × String)) (a : String),
      a ∈ mapKeys (ps.foldl recordPane acc).2 ↔
        (∃ p ∈ ps, a = paneId p ∧ p.terminal_command ≠ none) ∨ a ∈ mapKeys acc.2 := by
  induction ps with
  | nil => intro acc a; simp
  | cons p ps ih =>
    intro acc a
    rw [List.foldl_cons, ih]
    cases hc : p.terminal_command with
    | none =>
      rw [recordPane_snd_none acc p hc]
      simp only [List.mem_cons]
      constructor
      · rintro (⟨q, hq, hqid, hqc⟩ | hacc)
        · exact Or.inl ⟨q, Or.inr hq, hqid, hqc⟩
        · exact Or.inr hacc
      · rintro (⟨q, (rfl | hq), hqid, hqc⟩ | hacc)
        · exact absurd hc hqc
        · exact Or.inl ⟨q, hq, hqid, hqc⟩
        · exact Or.inr hacc
    | some c =>
      rw [recordPane_snd_some acc p c hc, mem_mapKeys_mapInsert]
      simp only [List.mem_cons]
      constructor
      · rintro (⟨q, hq, hqid, hqc⟩ | hk | hacc)
        · exact Or.inl ⟨q, Or.inr hq, hqid, hqc⟩
        · exact Or.inl ⟨p, Or.inl rfl, hk, by simp [hc]⟩
        · exact Or.inr hacc
      · rintro (⟨q, (rfl | hq), hqid, hqc⟩ | hacc)
        · exact Or.inr (Or.inl hqid)
        · exact Or.inl ⟨q, hq, hqid, hqc⟩
        · exact Or.inr (Or.inr hacc)

theorem mem_keys_foldTabs_names (tabs : List (Nat × List PaneInfo)) :
    ∀ (acc : List (String × String) × List (String × String)) (a : String),
      a ∈ mapKeys (tabs.foldl (fun acc tab => tab.2.foldl recordPane acc) acc).1 ↔
        (∃ t ∈ tabs, ∃ p ∈ t.2, a = paneId p) ∨ a ∈ mapKeys acc.1 := by
  induction tabs with
  | nil => intro acc a; simp
  | cons t ts ih =>
    intro acc a
    rw [List.foldl_cons, ih, mem_keys_foldPanes_names]
    simp only [List.mem_cons]
    constructor
    · rintro (⟨u, hu, hp⟩ | ⟨p, hp, rfl⟩ | hacc)
      · exact Or.inl ⟨u, Or.inr hu, hp⟩
      · exact Or.inl ⟨t, Or.inl rfl, p, hp, rfl⟩
      · exact Or.inr hacc
    · rintro (⟨u, (rfl | hu), p, hp, rfl⟩ | hacc)
      · exact Or.inr (Or.inl ⟨p, hp, rfl⟩)
      · exact Or.inl ⟨u, hu, p, hp, rfl⟩
      · exact Or.inr (Or.inr hacc)

theorem mem_keys_foldTabs_cmds (tabs : List (Nat × List PaneInfo)) :
    ∀ (acc : List (String × String) × List (String × String)) (a : String),
      a ∈ mapKeys (tabs.foldl (fun acc tab => tab.2.foldl recordPane acc) acc).2 ↔
        (∃ t ∈ tabs, ∃ p ∈ t.2, a = paneId p ∧ p.terminal_command ≠ none) ∨
          a ∈ mapKeys acc.2 := by
  induction tabs with
  | nil => intro acc a; simp
  | cons t ts ih =>
    intro acc a
    rw [List.foldl_cons, ih, mem_keys_foldPanes_cmds]
    simp only [List.mem_cons]
    constructor
    · rintro (⟨u, hu, hp⟩ | ⟨p, hp, hid, hc⟩ | hacc)
      · exact Or.inl ⟨u, Or.inr hu, hp⟩
      · exact Or.inl ⟨t, Or.inl rfl, p, hp, hid, hc⟩
      · exact Or.inr hacc
    · rintro (⟨u, (rfl | hu), p, hp, hid, hc⟩ | hacc)
      · exact Or.inr (Or.inl ⟨p, hp, hid, hc⟩)
      · exact Or.inl ⟨u, hu, p, hp, hid, hc⟩
      · exact Or.inr (Or.inr hacc)

theorem mem_names_update (s : State) (m : PaneManifest) (a : String) :
    a ∈ mapKeys (update_pane_info s m).pane_names ↔ a ∈ manifestIds m := by
  show a ∈ mapKeys (m.panes.foldl (fun acc tab => tab.2.foldl recordPane acc) ([], [])).1 ↔ _
  rw [mem_keys_foldTabs_names]
  simp only [manifestIds, List.mem_flatten, List.mem_map, mapKeys_nil,
    List.not_mem_nil, or_false]
  constructor
  · rintro ⟨t, ht, p, hp, rfl⟩
    exact ⟨t.2.map paneId, ⟨t, ht, rfl⟩, List.mem_map_of_mem paneId hp⟩
  · rintro ⟨l, ⟨t, ht, rfl⟩, hl⟩
    obtain ⟨p, hp, rfl⟩ := List.mem_map.mp hl
    exact ⟨t, ht, p, hp, rfl⟩

theorem mem_cmds_update (s : State) (m : PaneManifest) (a : String) :
    a ∈ mapKeys (update_pane_info s m).pane_commands ↔
      ∃ p ∈ allPanes m, a = paneId p ∧ p.terminal_command ≠ none := by
  show a ∈ mapKeys (m.panes.foldl (fun acc tab => tab.2.foldl recordPane acc) ([], [])).2 ↔ _
  rw [mem_keys_foldTabs_cmds]
  simp only [allPanes, List.mem_flatten, List.mem_map, mapKeys_nil,
    List.not_mem_nil, or_false]
  constructor
  · rintro ⟨t, ht, p, hp, hid, hc⟩
    exact ⟨p, ⟨t.2, ⟨t, ht, rfl⟩, hp⟩, hid, hc⟩
  · rintro ⟨p, ⟨l, ⟨t, ht, rfl⟩, hp⟩, hid, hc⟩
    exact ⟨t, ht, p, hp, hid, hc⟩

theorem mem_auto_capture_iff (s : State) (m : PaneManifest) (r : Request) :
    r ∈ auto_capture_panes s m ↔ ∃ p ∈ allPanes m, r ∈ autoCaptureOne s p := by
  unfold auto_capture_panes allPanes
  constructor
  · intro h
    obtain ⟨l, hl, hr⟩ := List.mem_flatten.mp h
    obtain ⟨t, ht, rfl⟩ := List.mem_map.mp hl
    obtain ⟨l2, hl2, hr2⟩ := List.mem_flatten.mp hr
    obtain ⟨p, hp, rfl⟩ := List.mem_map.mp hl2
    exact ⟨p, List.mem_flatten.mpr ⟨t.2, List.mem_map_of_mem Prod.snd ht, hp⟩, hr2⟩
  · rintro ⟨p, hpm, hr⟩
    obtain ⟨l, hl, hp⟩ := List.mem_flatten.mp hpm
    obtain ⟨t, ht, rfl⟩ := List.mem_map.mp hl
    exact List.mem_flatten.mpr ⟨(t.2.map (autoCaptureOne s)).flatten,
      List.mem_map_of_mem _ ht,
      List.mem_flatten.mpr ⟨autoCaptureOne s p, List.mem_map_of_mem _ hp, hr⟩⟩

theorem mem_autoCaptureOne_iff (s : State) (p : PaneInfo) (r : Request) :
    r ∈ autoCaptureOne s p ↔
      p.is_plugin = false ∧
        (r = Request.dump p.id ∨
          ∃ name, mapGet s.pane_names ("terminal_" ++ toString p.id) = some name ∧
            strStartsWith (sanitizeName name) "Pane-" = false ∧
            r = Request.symlink p.id (sanitizeName name)) := by
  cases hp : p.is_plugin with
  | true => simp [autoCaptureOne, hp]
  | false =>
    cases hg : mapGet s.pane_names ("terminal_" ++ toString p.id) with
    | none => simp [autoCaptureOne, hp, hg]
    | some name =>
      cases hsw : strStartsWith (sanitizeName name) "Pane-" with
      | true => simp [autoCaptureOne, hp, hg, hsw]
      | false => simp [autoCaptureOne, hp, hg, hsw]

theorem dump_mem_auto_capture (s : State) (m : PaneManifest) (p : PaneInfo)
    (hp : p ∈ allPanes m) (hplug : p.is_plugin = false) :
    Request.dump p.id ∈ auto_capture_panes s m :=
  (mem_auto_capture_iff s m _).mpr
    ⟨p, hp, (mem_autoCaptureOne_iff s p _).mpr ⟨hplug, Or.inl rfl⟩⟩

theorem dump_inv (s : State) (m : PaneManifest) (n : Nat)
    (h : Request.dump n ∈ auto_capture_panes s m) :
    ∃ p ∈ allPanes m, p.is_plugin = false ∧ p.id = n := by
  obtain ⟨p, hp, hone⟩ := (mem_auto_capture_iff s m _).mp h
  obtain ⟨hplug, hcase⟩ := (mem_autoCaptureOne_iff s p _).mp hone
  rcases hcase with hdump | ⟨name, _, _, heq⟩
  · obtain ⟨rfl⟩ : n = p.id := by
      simpa using hdump
    exact ⟨p, hp, hplug, rfl⟩
  · exact absurd heq (by simp)

theorem symlink_inv (s : State) (m : PaneManifest) (n : Nat) (safe : String)
    (h : Request.symlink n safe ∈ auto_capture_panes s m) :
    ∃ p ∈ allPanes m, p.is_plugin = false ∧ p.id = n ∧
      ∃ name, mapGet s.pane_names ("terminal_" ++ toString n) = some name ∧
        safe = sanitizeName name ∧ strStartsWith safe "Pane-" = false := by
  obtain ⟨p, hp, hone⟩ := (mem_auto_capture_iff s m _).mp h
  obtain ⟨hplug, hcase⟩ := (mem_autoCaptureOne_iff s p _).mp hone
  rcases hcase with hdump | ⟨name, hget, hsw, heq⟩
  · exact absurd hdump (by simp)
  · obtain ⟨hn, hsafe⟩ : n = p.id ∧ safe = sanitizeName name := by
      simpa using heq
    subst hn
    exact ⟨p, hp, hplug, rfl, name, hget, hsafe, hsafe ▸ hsw⟩

theorem sanitizeChar_eq_spec (c : Char) : sanitizeChar c = sanitizeCharSpec c := by
  by_cases h1 : c = ' '
  · subst h1; decide
  · by_cases h2 : c = '/'
    · subst h2; decide
    · unfold sanitizeChar sanitizeCharSpec
      simp [h1, h2]

theorem paneId_mem_manifestIds (m : PaneManifest) (p : PaneInfo)
    (hp : p ∈ allPanes m) : paneId p ∈ manifestIds m := by
  unfold allPanes at hp
  unfold manifestIds
  obtain ⟨l, hl, hp2⟩ := List.mem_flatten.mp hp
  obtain ⟨t, ht, rfl⟩ := List.mem_map.mp hl
  exact List.mem_flatten.mpr
    ⟨t.2.map paneId, List.mem_map_of_mem _ ht, List.mem_map_of_mem _ hp2⟩

/-- C1: for every starting state and every manifest, after reconciliation by
`update_pane_info` the key set of the names mapping equals exactly the set of
synthesized pane identifiers (`plugin_<index>` / `terminal_<index>`) derivable
from the manifest's descriptors — no extra keys and no keys surviving from any
previously reconciled manifest (the starting state is arbitrary). -/
theorem C1_names_keys_exact (s : State) (m : PaneManifest) (a : String) :
    a ∈ mapKeys (update_pane_info s m).pane_names ↔ a ∈ manifestIds m :=
  mem_names_update s m a

theorem C1_names_keys_exact_witness :
    "terminal_5" ∈ mapKeys (update_pane_info initState mX).pane_names :=
  (C1_names_keys_exact initState mX "terminal_5").mpr (by decide)

/-- C2 counterexample: a non-plugin pane (index 0) whose stored name is the
empty string — which sanitizes to the empty token — still receives a
symlink-creation request from `auto_capture_panes`, contradicting the claim
that an empty sanitized name suppresses symlink creation. -/
theorem C2_empty_name_symlink_cex :
    mapGet (update_pane_info initState mEmptyTitle).pane_names "terminal_0"
        = some "" ∧
      sanitizeName "" = "" ∧
      Request.symlink 0 ""
        ∈ auto_capture_panes (update_pane_info initState mEmptyTitle) mEmptyTitle := by
  refine ⟨by decide, by decide, by decide⟩

/-- C2 (amended): a symlink-creation request for pane index `n` is issued only
when the state store holds a resolved name for `terminal_n` whose sanitization
does not begin with `"Pane-"`; emptiness of the sanitized token does not
suppress the request (an empty sanitized name still yields a symlink request). -/
theorem C2_symlink_only_without_pane_prefix (s : State) (m : PaneManifest)
    (n : Nat) (safe : String)
    (h : Request.symlink n safe ∈ auto_capture_panes s m) :
    ∃ name, mapGet s.pane_names ("terminal_" ++ toString n) = some name ∧
      safe = sanitizeName name ∧ strStartsWith safe "Pane-" = false := by
  obtain ⟨p, hp, hplug, hid, name, hget, hsafe, hsw⟩ := symlink_inv s m n safe h
  exact ⟨name, hget, hsafe, hsw⟩

theorem C2_symlink_only_without_pane_prefix_witness :
    ∃ name, mapGet (update_pane_info initState mEmptyTitle).pane_names
        ("terminal_" ++ toString 0) = some name ∧
      "" = sanitizeName name ∧ strStartsWith "" "Pane-" = false :=
  C2_symlink_only_without_pane_prefix
    (update_pane_info initState mEmptyTitle) mEmptyTitle 0 "" (by decide)

/-- C3: the name sanitizer is a pure per-character map realizing the spec's
rule (identity on alphanumeric, `-`, `_`; space and `/` to `-`; everything
else to `_`), and sanitizing "My Pane/1" yields "My-Pane-1". -/
theorem C3_sanitizer_per_char :
    (∀ str : String, sanitizeName str = String.mk (str.data.map sanitizeCharSpec)) ∧
      sanitizeName "My Pane/1" = "My-Pane-1" := by
  constructor
  · intro str
    unfold sanitizeName
    rw [show sanitizeChar = sanitizeCharSpec from funext sanitizeChar_eq_spec]
  · decide

/-- C4: for a pane index whose resolved name sanitizes to a token beginning
with the literal prefix "Pane-", auto-capture issues no symlink-creation
request for that pane, whichever manifest is processed. -/
theorem C4_pane_prefix_suppresses_symlink (s : State) (m : PaneManifest)
    (n : Nat) (name : String)
    (h1 : mapGet s.pane_names ("terminal_" ++ toString n) = some name)
    (h2 : strStartsWith (sanitizeName name) "Pane-" = true) :
    ∀ safe, Request.symlink n safe ∉ auto_capture_panes s m := by
  intro safe hmem
  obtain ⟨p, hp, hplug, hid, name2, hget, hsafe, hsw⟩ := symlink_inv s m n safe hmem
  rw [h1] at hget
  have hn : name = name2 := Option.some.inj hget
  rw [hsafe, ← hn, h2] at hsw
  exact Bool.noConfusion hsw

theorem C4_pane_prefix_suppresses_symlink_witness :
    strStartsWith (sanitizeName "Pane/3") "Pane-" = true ∧
      Request.symlink 3 "Pane-3"
        ∉ auto_capture_panes (update_pane_info initState mPane3) mPane3 :=
  ⟨by decide,
    C4_pane_prefix_suppresses_symlink
      (update_pane_info initState mPane3) mPane3 3 "Pane/3"
      (by decide) (by decide) "Pane-3"⟩

/-- C5: auto-capture issues a content dump for each non-plugin descriptor;
every dump and every symlink request is attributable to a non-plugin
descriptor (so plugin descriptors produce no request); and a manifest
containing only plugin panes produces zero requests. -/
theorem C5_dumps_nonplugin_only (s : State) (m : PaneManifest) :
    (∀ p ∈ allPanes m, p.is_plugin = false →
        Request.dump p.id ∈ auto_capture_panes s m) ∧
      (∀ n, Request.dump n ∈ auto_capture_panes s m →
        ∃ p ∈ allPanes m, p.is_plugin = false ∧ p.id = n) ∧
      (∀ n safe, Request.symlink n safe ∈ auto_capture_panes s m →
        ∃ p ∈ allPanes m, p.is_plugin = false ∧ p.id = n) ∧
      ((∀ p ∈ allPanes m, p.is_plugin = true) → auto_capture_panes s m = []) := by
  refine ⟨fun p hp hplug => dump_mem_auto_capture s m p hp hplug,
    fun n h => dump_inv s m n h, fun n safe h => ?_, fun hall => ?_⟩
  · obtain ⟨p, hp, hplug, hid, _⟩ := symlink_inv s m n safe h
    exact ⟨p, hp, hplug, hid⟩
  · rw [List.eq_nil_iff_forall_not_mem]
    intro r hr
    obtain ⟨p, hp, hone⟩ := (mem_auto_capture_iff s m r).mp hr
    have hplug := ((mem_autoCaptureOne_iff s p r).mp hone).1
    rw [hall p hp] at hplug
    exact Bool.noConfusion hplug

theorem C5_dumps_nonplugin_only_witness :
    Request.dump 7 ∈ auto_capture_panes (update_pane_info initState mBuild) mBuild ∧
      auto_capture_panes initState mPluginOnly = [] :=
  ⟨(C5_dumps_nonplugin_only (update_pane_info initState mBuild) mBuild).1
      paneBuild (by decide) (by decide),
    (C5_dumps_nonplugin_only initState mPluginOnly).2.2.2 (by decide)⟩

/-- C6: for a manifest with exactly one non-plugin pane at index 7 titled
"build" (reconciled into the state store), auto-capture issues exactly one
dump request targeting index 7 and exactly one symlink request with the
"build"-derived name, and nothing else. -/
theorem C6_build_pane_exact_requests :
    auto_capture_panes (update_pane_info initState mBuild) mBuild
      = [Request.dump 7, Request.symlink 7 "build"] := by
  decide

/-- C7: reconciliation is idempotent — for every manifest and every starting
state, running `update_pane_info` twice with the identical manifest yields the
same names and commands mappings as running it once. -/
theorem C7_reconcile_idempotent (s : State) (m : PaneManifest) :
    (update_pane_info (update_pane_info s m) m).pane_names
        = (update_pane_info s m).pane_names ∧
      (update_pane_info (update_pane_info s m) m).pane_commands
        = (update_pane_info s m).pane_commands :=
  ⟨rfl, rfl⟩

/-- C8: snapshot export always issues exactly one write of a document whose
panes mapping equals the current names mapping; a failed clock read (`none`)
falls back to timestamp 0 rather than failing the export; on the empty state
store the document has an empty names mapping and a non-negative timestamp. -/
theorem C8_export_snapshot (s : State) (clock : Option Nat) :
    export_to_file s clock
        = [Request.writeNames ⟨s.pane_names, clock.getD 0⟩] ∧
      export_to_file s none = [Request.writeNames ⟨s.pane_names, 0⟩] ∧
      export_to_file initState clock = [Request.writeNames ⟨[], clock.getD 0⟩] ∧
      0 ≤ clock.getD 0 :=
  ⟨rfl, rfl, rfl, Nat.zero_le _⟩

/-- C9: full capture issues exactly one metadata-document write containing one
entry per pane descriptor (plugin panes included), followed by exactly the
auto-capture requests for the same manifest; on the empty manifest it still
issues a write of a valid empty-sequence document. -/
theorem C9_full_capture (s : State) (m : PaneManifest) :
    capture_all_panes s m
        = Request.writeMeta ((allPanes m).map (exportEntry s))
            :: auto_capture_panes s m ∧
      (capture_all_panes s m).countP isMetaWrite = 1 ∧
      capture_all_panes s ⟨[]⟩ = [Request.writeMeta []] := by
  refine ⟨?_, ?_, rfl⟩
  · unfold capture_all_panes allPanes
    rw [List.map_flatten, List.map_map]
    rfl
  · show (Request.writeMeta _ :: auto_capture_panes s m).countP isMetaWrite = 1
    rw [List.countP_cons]
    simp only [isMetaWrite, if_true]
    have hz : (auto_capture_panes s m).countP isMetaWrite = 0 := by
      rw [List.countP_eq_zero]
      intro r hr
      obtain ⟨p, hp, hone⟩ := (mem_auto_capture_iff s m r).mp hr
      obtain ⟨hplug, hcase⟩ := (mem_autoCaptureOne_iff s p r).mp hone
      rcases hcase with rfl | ⟨name, _, _, rfl⟩ <;> simp [isMetaWrite]
    omega

/-- C10: invariant kept by every reconciliation — after `update_pane_info` on
any manifest (and in the initial empty state), every key of the commands
mapping is also a key of the names mapping. -/
theorem C10_commands_subset_names (s : State) (m : PaneManifest) :
    (∀ a, a ∈ mapKeys (update_pane_info s m).pane_commands →
        a ∈ mapKeys (update_pane_info s m).pane_names) ∧
      ∀ a, a ∈ mapKeys initState.pane_commands → a ∈ mapKeys initState.pane_names := by
  constructor
  · intro a ha
    rw [mem_cmds_update] at ha
    obtain ⟨p, hp, hid, _⟩ := ha
    rw [mem_names_update]
    subst hid
    exact paneId_mem_manifestIds m p hp
  · intro a ha
    simp [initState, mapKeys] at ha

theorem C10_commands_subset_names_witness :
    "terminal_2" ∈ mapKeys (update_pane_info initState mVim).pane_names :=
  (C10_commands_subset_names initState mVim).1 "terminal_2" (by decide)
